import Mathlib

/-!
Shallow embedding of the goloadbalancer sources (errors.go, listener.go,
loadbalancer.go, main.go) in Lean 4, together with theorems settling the
frozen claims about the spec.

Modelling conventions:
* Go `*sync.WaitGroup` pointers are modelled as `Option Nat`: `none` is a nil
  pointer, `some k` a wait group whose counter is `k`.  Calling a method on a
  nil pointer is a runtime panic, modelled by `PanicOr.panic`.
* `rand.Intn n` returns an arbitrary value in `[0, n)` and panics for `n = 0`;
  the randomness is supplied as an adversarial stream of naturals, reduced
  modulo `n`.
* Go maps / header maps are modelled as association lists with the `Get`
  (first match, "" when absent) and `Set` (replace all values for the key)
  semantics of `net/http.Header`.
* `uuid.New()` is nondeterministic; listener ids are supplied as parameters.
-/

namespace LoadBalancer

/-- Result of running a piece of Go code that can panic at runtime
(nil-pointer dereference, `rand.Intn(0)`, division by zero, ...). -/
inductive PanicOr (α : Type) where
  | panic (msg : String)
  | ok (a : α)
  deriving Repr, DecidableEq

/-- `listener.go` — `ListenerHealthCheckConfig` (port, path, timeout). -/
structure ListenerHealthCheckConfig where
  port : Int
  path : String
  timeoutNs : Int
  deriving Repr, DecidableEq

/-- `listener.go` — the `Listener` struct.  `id` abstracts the `uuid.UUID`,
`wg` the `*sync.WaitGroup` pointer (`none` = nil).  The `http.Client` field
carries no modelled state. -/
structure Listener where
  id : Nat
  targetIp : String
  targetPort : Int
  healthCheckConfig : Option ListenerHealthCheckConfig
  weight : Int
  wg : Option Nat
  deriving Repr, DecidableEq

/-- A junk listener used as the default of `List.getD`; every indexing in the
source is in range, so it is never actually selected. -/
def defaultListener : Listener :=
  { id := 0, targetIp := "", targetPort := 0, healthCheckConfig := none
    weight := 1, wg := none }

instance : Inhabited Listener := ⟨defaultListener⟩

/-- `listener.go` — the `ListenerConfig` options actually defined in the
source: `WithListenerHealthCheck` and `WithWeight`. -/
inductive ListenerConfig where
  | withListenerHealthCheck (port : Int) (path : String) (timeoutNs : Int)
  | withWeight (weight : Int)
  deriving Repr, DecidableEq

/-- `listener.go` — the clamping performed by `WithWeight` before it captures
the weight: `if weight < 0 { weight = 0 } else if weight > 100 { weight = 100 }`. -/
def clampWeight (w : Int) : Int :=
  if w < 0 then 0 else if w > 100 then 100 else w

/-- Application of one `ListenerConfig` closure to a listener. -/
def applyConfig (l : Listener) (c : ListenerConfig) : Listener :=
  match c with
  | .withListenerHealthCheck port path timeoutNs =>
      { l with healthCheckConfig := some ⟨port, path, timeoutNs⟩ }
  | .withWeight w => { l with weight := clampWeight w }

/-- `listener.go` — `NewListener`, success path after the address has parsed:
`l := &Listener{id: uuid.New(), targetIp: parsedIp, targetPort: parsedPort,
httpClient: http.Client{}, weight: 1}` followed by applying each config.
Note that the `wg` field is never assigned, so it stays the zero value
`nil` (`none`). -/
def newListener (id : Nat) (targetIp : String) (targetPort : Int)
    (config : List ListenerConfig) : Listener :=
  config.foldl applyConfig
    { id := id, targetIp := targetIp, targetPort := targetPort
      healthCheckConfig := none, weight := 1, wg := none }

/-- `sync.WaitGroup.Add` through the listener's `wg` pointer: a nil pointer
(`none`) is a runtime panic. -/
def wgAdd (wg : Option Nat) (delta : Nat) : PanicOr Nat :=
  match wg with
  | none => .panic "runtime error: invalid memory address or nil pointer dereference"
  | some k => .ok (k + delta)

/-- `sync.WaitGroup.Wait` through the listener's `wg` pointer: a nil pointer
(`none`) is a runtime panic; otherwise it blocks until the counter is zero
and returns. -/
def wgWait (wg : Option Nat) : PanicOr Unit :=
  match wg with
  | none => .panic "runtime error: invalid memory address or nil pointer dereference"
  | some _ => .ok ()

/-- `math/rand.Intn` — returns an arbitrary value in `[0, n)`, panics when
`n = 0` (in Go, for `n <= 0`).  The draw `r` is an adversarial natural,
reduced modulo `n` so that the result is always in range. -/
def randIntn (r : Nat) (n : Nat) : PanicOr Nat :=
  if n = 0 then .panic "invalid argument to Intn"
  else .ok (r % n)

/-- `loadbalancer.go` — outcome of `BalancingAlgorithm.pickListener`:
either the `ErrServerGenericError{reason: "no listeners available"}` error,
a runtime panic inside the algorithm closure, or a picked listener together
with the algorithm's updated internal state (of type `σ`). -/
inductive PickResult (σ : Type) where
  | noListeners
  | panic (msg : String)
  | picked (l : Listener) (st : σ)
  deriving Repr, DecidableEq

/-- `loadbalancer.go` — `Random()`: `listeners[rand.Intn(len(listeners))]`.
Its state is the remaining stream of random draws. -/
def randomStep (rs : List Nat) (listeners : List Listener) :
    PanicOr (Listener × List Nat) :=
  match randIntn (rs.headD 0) listeners.length with
  | .panic m => .panic m
  | .ok i => .ok (listeners.getD i defaultListener, rs.tail)

/-- `loadbalancer.go` — `RoundRobin()`: `i = (i + 1) % len(listeners);
return listeners[i]`.  Its state is the captured cursor `i`; `% 0` is a Go
runtime panic (never reached through `pickListener`). -/
def roundRobinStep (i : Nat) (listeners : List Listener) :
    PanicOr (Listener × Nat) :=
  if listeners.length = 0 then .panic "runtime error: integer divide by zero"
  else
    let j := (i + 1) % listeners.length
    .ok (listeners.getD j defaultListener, j)

/-- `loadbalancer.go` — the `flatSlice` built by `WeightedRoundRobin()`:
for each index `i`, append `listeners[i].weight` copies of `i` (a
non-positive weight contributes nothing, like Go's `for j := 0; j < w; j++`). -/
def flatSliceOf (listeners : List Listener) : List Nat :=
  listeners.enum.foldl
    (fun acc p => acc ++ List.replicate p.2.weight.toNat p.1) []

/-- `loadbalancer.go` — `WeightedRoundRobin()`:
`listeners[flatSlice[rand.Intn(len(flatSlice))]]`.  When every weight is 0
the flat slice is empty and `rand.Intn(0)` panics. -/
def weightedRoundRobinStep (rs : List Nat) (listeners : List Listener) :
    PanicOr (Listener × List Nat) :=
  let flatSlice := flatSliceOf listeners
  match randIntn (rs.headD 0) flatSlice.length with
  | .panic m => .panic m
  | .ok k => .ok (listeners.getD (flatSlice.getD k 0) defaultListener, rs.tail)

/-- `loadbalancer.go` — `BalancingAlgorithm.pickListener`: returns the
"no listeners available" error when the slice is empty, otherwise invokes
the algorithm closure `b(listeners)` (threading its internal state `st`). -/
def pickListener {σ : Type} (step : σ → List Listener → PanicOr (Listener × σ))
    (st : σ) (listeners : List Listener) : PickResult σ :=
  if listeners.length = 0 then .noListeners
  else
    match step st listeners with
    | .panic m => .panic m
    | .ok (l, st') => .picked l st'

/-- `loadbalancer.go` — the `Server` struct: listener slice, the
`unhealthyListeners` map (modelled as the list of ids mapped to `true`),
and the `stopped` atomic flag.  The balancing algorithm is passed
separately since it is a stateful closure. -/
structure Server where
  listeners : List Listener
  unhealthyListeners : List Nat
  stopped : Bool
  deriving Repr, DecidableEq

/-- Outcome of one call to `Server.handle`, observed through the
`http.ResponseWriter`: the two 503 error responses, a runtime panic, the
request being handed to a listener, or — with bounded fuel — the selection
loop still running. -/
inductive HandleOutcome where
  | stoppedResponse
  | unavailableResponse
  | panicked (msg : String)
  | forwarded (l : Listener)
  | looping
  deriving Repr, DecidableEq

/-- `loadbalancer.go` — the selection loop of `Server.handle`:
`for listener == nil || s.unhealthyListeners[listener.id.String()] { ... }`,
instrumented with fuel: `.looping` means the loop has not terminated after
`fuel` iterations. -/
def selectionLoop {σ : Type} (step : σ → List Listener → PanicOr (Listener × σ))
    (s : Server) : σ → Nat → HandleOutcome
  | _, 0 => .looping
  | st, fuel + 1 =>
    match pickListener step st s.listeners with
    | .noListeners => .unavailableResponse
    | .panic m => .panicked m
    | .picked l st' =>
      if s.unhealthyListeners.contains l.id then selectionLoop step s st' fuel
      else .forwarded l

/-- `loadbalancer.go` — `Server.handle`: reject with 503 "server is stopped"
when the stopped flag is set, otherwise run the selection loop. -/
def serverHandle {σ : Type} (step : σ → List Listener → PanicOr (Listener × σ))
    (s : Server) (st : σ) (fuel : Nat) : HandleOutcome :=
  if s.stopped then .stoppedResponse else selectionLoop step s st fuel

/-- `loadbalancer.go` — `Server.Stop`'s drain loop:
`for _, listener := range s.listeners { listener.wg.Wait() }`.
Waiting on a nil wait group panics. -/
def drainAll : List Listener → PanicOr Unit
  | [] => .ok ()
  | l :: rest =>
    match wgWait l.wg with
    | .panic m => .panic m
    | .ok _ => drainAll rest

/-- Result of `Server.Stop`: the `ErrServerStopped` error, a runtime panic
while draining, or a normal `nil` return. -/
inductive StopResult where
  | errServerStopped
  | panicNilWg (msg : String)
  | ok
  deriving Repr, DecidableEq

/-- `loadbalancer.go` — `Server.Stop`: on an already-stopped server return
`ErrServerStopped` immediately (no drain, state unchanged); otherwise set
the stopped flag, then wait on every listener's wait group, then return nil. -/
def serverStop (s : Server) : StopResult × Server :=
  if s.stopped then (.errServerStopped, s)
  else
    let s' := { s with stopped := true }
    match drainAll s'.listeners with
    | .panic m => (.panicNilWg m, s')
    | .ok _ => (.ok, s')

/-- Header list with `net/http.Header` access semantics. -/
def Headers := List (String × String)

instance : DecidableEq Headers := fun a b => List.hasDecEq a b

/-- `net/http.Header.Get`: first value for the key, `""` when absent. -/
def headerGet (h : Headers) (k : String) : String :=
  match List.find? (fun p => p.1 = k) h with
  | some p => p.2
  | none => ""

/-- `net/http.Header.Set`: replace any existing values for the key. -/
def headerSet (h : Headers) (k : String) (v : String) : Headers :=
  (k, v) :: List.filter (fun p => ¬ p.1 = k) h

/-- The part of an inbound `*http.Request` the handler reads: method, body,
header map, `Host`, and `RemoteAddr`. -/
structure InboundRequest where
  method : String
  body : String
  headers : List (String × String)
  host : String
  remoteAddr : String
  deriving Repr, DecidableEq

/-- The outbound `proxyReq` built by `Listener.handle`. -/
structure OutboundRequest where
  url : String
  method : String
  body : String
  headers : List (String × String)
  deriving Repr, DecidableEq

/-- Split a character list at every colon (the grouping underlying
`net.SplitHostPort` on non-bracketed input); the result is always
non-empty. -/
def splitCharsOnColon : List Char → List (List Char)
  | [] => [[]]
  | c :: rest =>
    match splitCharsOnColon rest with
    | [] => []
    | h :: t => if c = ':' then [] :: h :: t else (c :: h) :: t

/-- Model of Go `net.SplitHostPort` restricted to the non-bracketed
`host:port` form used here: exactly one colon splits host from port; no
colon (missing port) or several colons (too many colons) is an error. -/
def splitHostPort (hostport : String) : Option (String × String) :=
  match splitCharsOnColon hostport.toList with
  | [h, p] => some (⟨h⟩, ⟨p⟩)
  | _ => none

/-- `listener.go` — `Listener.getTargetAddr` prefixed with the scheme, as in
`fmt.Sprintf("http://%s", l.getTargetAddr())` (JoinHostPort on the model's
string fields). -/
def listenerTargetUrl (l : Listener) : String :=
  "http://" ++ l.targetIp ++ ":" ++ toString l.targetPort

/-- What `Listener.handle` does before performing the outbound call: either
one of the 500 error responses written with `http.Error`, or the fully built
outbound request. -/
inductive ForwardBuild where
  | errorResponse (status : Nat) (msg : String)
  | request (req : OutboundRequest)
  deriving Repr, DecidableEq

/-- `listener.go` — `Listener.handle`, lines building `proxyReq` (the
request-construction part, after the wait-group bookkeeping):
copy the original headers, transform `X-Forwarded-For` (append
`","+r.RemoteAddr` when present, else set to `r.RemoteAddr`), then parse
`r.Host` with `net.SplitHostPort` — on error reply
`http.Error(w, "unable to create forwarded request", 500)` and return —
and set `X-Forwarded-Port` to the parsed port.
`http.NewRequest` is modelled as always succeeding: the method comes from a
parsed request and the URL is built from the validated target address. -/
def listenerBuildProxyRequest (l : Listener) (r : InboundRequest) : ForwardBuild :=
  let h0 := r.headers
  let h1 :=
    if ¬ headerGet h0 "X-Forwarded-For" = "" then
      headerSet h0 "X-Forwarded-For"
        (headerGet h0 "X-Forwarded-For" ++ "," ++ r.remoteAddr)
    else
      headerSet h0 "X-Forwarded-For" r.remoteAddr
  match splitHostPort r.host with
  | none => .errorResponse 500 "unable to create forwarded request"
  | some (_, port) =>
      .request
        { url := listenerTargetUrl l, method := r.method, body := r.body
          headers := headerSet h1 "X-Forwarded-Port" port }

/-- The outbound `X-Forwarded-For` value, when a request was built. -/
def builtXff : ForwardBuild → Option String
  | .request req => some (headerGet req.headers "X-Forwarded-For")
  | .errorResponse _ _ => none

/-- The outbound `X-Forwarded-Port` value, when a request was built. -/
def builtXfPort : ForwardBuild → Option String
  | .request req => some (headerGet req.headers "X-Forwarded-Port")
  | .errorResponse _ _ => none

/-- `listener.go` — entry of `Listener.handle`: `l.wg.Add(1)` runs before
anything else, so a nil wait group panics before any request is built. -/
def listenerHandle (l : Listener) (r : InboundRequest) : PanicOr ForwardBuild :=
  match wgAdd l.wg 1 with
  | .panic m => .panic m
  | .ok _ => .ok (listenerBuildProxyRequest l r)

/-- The upstream response received from the target server. -/
structure UpstreamResponse where
  statusCode : Nat
  body : String
  deriving Repr, DecidableEq

/-- What the client receives back. -/
structure ClientResponse where
  status : Nat
  body : String
  deriving Repr, DecidableEq

/-- `listener.go` — the success tail of `Listener.handle`:
`io.Copy(w, resp.Body)`.  The handler never calls `w.WriteHeader`, so
`net/http` sends the default status 200 on the first write; only the body
is copied from the upstream response. -/
def relayResponse (resp : UpstreamResponse) : ClientResponse :=
  { status := 200, body := resp.body }

/-- `k` consecutive invocations of the `RoundRobin()` closure on a fixed
listener slice, starting from cursor `i`: the list of selected listeners
(empty tail on the unreachable `% 0` panic). -/
def roundRobinRun (listeners : List Listener) : Nat → Nat → List Listener
  | _, 0 => []
  | i, k + 1 =>
    match roundRobinStep i listeners with
    | .panic _ => []
    | .ok (l, i') => l :: roundRobinRun listeners i' k

/-- The cursor/index trace of `k` consecutive `RoundRobin()` invocations on a
slice of length `n`, starting from cursor `i`: each call advances the cursor
to `(i + 1) % n` and selects that index. -/
def roundRobinCursorRun (n : Nat) : Nat → Nat → List Nat
  | _, 0 => []
  | i, k + 1 => ((i + 1) % n) :: roundRobinCursorRun n ((i + 1) % n) k

/-- A listener as produced by `NewListener("127.0.0.1:8082")` with no extra
options (id abstracted as 0). -/
def exListener : Listener := newListener 0 "127.0.0.1" 8082 []

/-- A server holding `exListener` whose id is marked unhealthy and which is
not stopped — the all-backends-unhealthy pool state. -/
def exUnhealthyServer : Server :=
  { listeners := [exListener], unhealthyListeners := [exListener.id]
    stopped := false }

/-- A running (not stopped) server holding `exListener` and no unhealthy
marks. -/
def exServer : Server :=
  { listeners := [exListener], unhealthyListeners := [], stopped := false }

/-- Two zero-weight listeners, as produced by
`NewListener(addr, WithWeight(0))`. -/
def exZeroWeightListeners : List Listener :=
  [newListener 1 "127.0.0.1" 8083 [.withWeight 0],
   newListener 2 "127.0.0.1" 8084 [.withWeight 0]]

/-- An inbound request carrying `X-Forwarded-For: 1.2.3.4` from remote
address `5.6.7.8`, addressed to the dispatcher at `127.0.0.1:8080`. -/
def exRequest : InboundRequest :=
  { method := "GET", body := "", headers := [("X-Forwarded-For", "1.2.3.4")]
    host := "127.0.0.1:8080", remoteAddr := "5.6.7.8" }

/-- `headerGet` after `headerSet` on a different key is unchanged. -/
theorem headerGet_headerSet_ne (h : Headers) (k k' v : String) (hk : ¬ k' = k) :
    headerGet (headerSet h k' v) k = headerGet h k := by
  unfold headerGet headerSet
  rw [List.find?_cons_of_neg _ (by simp [hk])]
  induction h with
  | nil => rfl
  | cons p t ih =>
    by_cases hp : p.1 = k'
    · have hnk : ¬ p.1 = k := by rw [hp]; exact hk
      rw [List.filter_cons_of_neg (by simp [hp]),
        List.find?_cons_of_neg _ (by simp [hnk])]
      exact ih
    · rw [List.filter_cons_of_pos (by simp [hp])]
      by_cases hpk : p.1 = k
      · rw [List.find?_cons_of_pos _ (by simp [hpk]),
          List.find?_cons_of_pos _ (by simp [hpk])]
      · rw [List.find?_cons_of_neg _ (by simp [hpk]),
          List.find?_cons_of_neg _ (by simp [hpk])]
        exact ih

/-- `headerGet` right after `headerSet` on the same key yields the set value. -/
theorem headerGet_headerSet_same (h : Headers) (k v : String) :
    headerGet (headerSet h k v) k = v := by
  simp [headerGet, headerSet, List.find?]

/-- `applyConfig` never touches the `wg` field. -/
theorem wg_applyConfig (l : Listener) (c : ListenerConfig) :
    (applyConfig l c).wg = l.wg := by
  cases c <;> rfl

/-- Folding configs over a listener never touches the `wg` field. -/
theorem wg_foldl_applyConfig (configs : List ListenerConfig) :
    ∀ l : Listener, (configs.foldl applyConfig l).wg = l.wg := by
  induction configs with
  | nil => intro l; rfl
  | cons c t ih => intro l; rw [List.foldl_cons, ih, wg_applyConfig]

/-- `clampWeight` lands in `[0, 100]`. -/
theorem clampWeight_bounds (w : Int) :
    0 ≤ clampWeight w ∧ clampWeight w ≤ 100 := by
  unfold clampWeight
  split <;> [omega; split <;> omega]

/-- `applyConfig` keeps the weight in `[0, 100]`. -/
theorem weight_applyConfig_bounds (l : Listener) (c : ListenerConfig)
    (h0 : 0 ≤ l.weight) (h1 : l.weight ≤ 100) :
    0 ≤ (applyConfig l c).weight ∧ (applyConfig l c).weight ≤ 100 := by
  cases c with
  | withListenerHealthCheck port path timeoutNs => exact ⟨h0, h1⟩
  | withWeight w => exact clampWeight_bounds w

/-- Folding configs keeps the weight in `[0, 100]`. -/
theorem weight_foldl_applyConfig_bounds (configs : List ListenerConfig) :
    ∀ l : Listener, 0 ≤ l.weight → l.weight ≤ 100 →
      0 ≤ (configs.foldl applyConfig l).weight
      ∧ (configs.foldl applyConfig l).weight ≤ 100 := by
  induction configs with
  | nil => intro l h0 h1; exact ⟨h0, h1⟩
  | cons c t ih =>
    intro l h0 h1
    rw [List.foldl_cons]
    obtain ⟨g0, g1⟩ := weight_applyConfig_bounds l c h0 h1
    exact ih _ g0 g1

/-- C10: every listener produced by `NewListener` has weight in `[0, 100]`;
the default weight (no configs) is 1; and `WithWeight` clamps a supplied
weight below 0 to 0 and above 100 to 100. -/
theorem c10_weight_invariant :
    ∀ (id : Nat) (ip : String) (port : Int) (configs : List ListenerConfig),
      (0 ≤ (newListener id ip port configs).weight
        ∧ (newListener id ip port configs).weight ≤ 100)
      ∧ (newListener id ip port []).weight = 1
      ∧ (∀ w : Int, w < 0 → clampWeight w = 0)
      ∧ (∀ w : Int, 100 < w → clampWeight w = 100) := by
  intro id ip port configs
  refine ⟨?_, rfl, ?_, ?_⟩
  · exact weight_foldl_applyConfig_bounds configs _
      (show (0 : Int) ≤ 1 by norm_num) (show (1 : Int) ≤ 100 by norm_num)
  · intro w hw; simp [clampWeight, hw]
  · intro w hw
    have hn : ¬ w < 0 := by omega
    simp [clampWeight, hn, hw]

/-- Witness for C10 at concrete inputs: the clamping branches and the bounds
evaluated on `WithWeight(250)` and `WithWeight(-5)`. -/
theorem c10_weight_invariant_witness :
    clampWeight (-5) = 0
    ∧ clampWeight 250 = 100
    ∧ 0 ≤ (newListener 0 "127.0.0.1" 8082 [.withWeight 250]).weight
    ∧ (newListener 0 "127.0.0.1" 8082 [.withWeight 250]).weight ≤ 100 :=
  ⟨(c10_weight_invariant 0 "127.0.0.1" 8082 []).2.2.1 (-5) (by decide),
   (c10_weight_invariant 0 "127.0.0.1" 8082 []).2.2.2 250 (by decide),
   (c10_weight_invariant 0 "127.0.0.1" 8082 [.withWeight 250]).1.1,
   (c10_weight_invariant 0 "127.0.0.1" 8082 [.withWeight 250]).1.2⟩

/-- C9: six consecutive round-robin calls over a fixed three-listener slice,
from any reachable cursor `i < 3`, select exactly the index trace
`(i+1) % 3, (i+2) % 3, ...` — each of the three indices exactly twice, in
cyclic order. -/
theorem c9_round_robin_six_calls (a b c : Listener) (i : Nat) (hi : i < 3) :
    roundRobinRun [a, b, c] i 6
      = (roundRobinCursorRun 3 i 6).map (fun j => List.getD [a, b, c] j defaultListener)
    ∧ (roundRobinCursorRun 3 i 6).count 0 = 2
    ∧ (roundRobinCursorRun 3 i 6).count 1 = 2
    ∧ (roundRobinCursorRun 3 i 6).count 2 = 2 := by
  interval_cases i <;>
    exact ⟨by simp [roundRobinRun, roundRobinStep, roundRobinCursorRun], by decide,
      by decide, by decide⟩

/-- Witness for C9: the six-call trace from cursor 0. -/
theorem c9_round_robin_six_calls_witness :
    roundRobinRun [defaultListener, defaultListener, defaultListener] 0 6
      = (roundRobinCursorRun 3 0 6).map
          (fun j => List.getD [defaultListener, defaultListener, defaultListener] j defaultListener)
    ∧ (roundRobinCursorRun 3 0 6).count 0 = 2
    ∧ (roundRobinCursorRun 3 0 6).count 1 = 2
    ∧ (roundRobinCursorRun 3 0 6).count 2 = 2 :=
  c9_round_robin_six_calls defaultListener defaultListener defaultListener 0 (by decide)

/-- C8: on an empty backend snapshot each of the three policies, invoked
through `pickListener`, yields the no-listeners error (and in particular no
backend), whatever the internal state of the policy. -/
theorem c8_empty_snapshot_no_backends :
    ∀ (rs : List Nat) (i : Nat),
      pickListener randomStep rs ([] : List Listener) = .noListeners
      ∧ pickListener roundRobinStep i ([] : List Listener) = .noListeners
      ∧ pickListener weightedRoundRobinStep rs ([] : List Listener) = .noListeners := by
  intro rs i
  exact ⟨rfl, rfl, rfl⟩

/-- C7: on every request that is actually forwarded (the Host port parses),
the outbound `X-Forwarded-For` is the remote address when the inbound header
is absent, and `v ++ "," ++ remote` when the inbound header carries `v`. -/
theorem c7_x_forwarded_for (l : Listener) (r : InboundRequest)
    (hok : ¬ splitHostPort r.host = none) :
    (headerGet r.headers "X-Forwarded-For" = "" →
      builtXff (listenerBuildProxyRequest l r) = some r.remoteAddr)
    ∧ ∀ v : String, ¬ v = "" → headerGet r.headers "X-Forwarded-For" = v →
        builtXff (listenerBuildProxyRequest l r) = some (v ++ "," ++ r.remoteAddr) := by
  have hne : ¬ ("X-Forwarded-Port" : String) = "X-Forwarded-For" := by decide
  cases hsp : splitHostPort r.host with
  | none => exact absurd hsp hok
  | some hp =>
    obtain ⟨hst, prt⟩ := hp
    constructor
    · intro habs
      unfold listenerBuildProxyRequest builtXff
      rw [hsp]
      simp only [habs]
      rw [headerGet_headerSet_ne _ _ _ _ hne]
      simp [headerGet_headerSet_same]
    · intro v hv hgv
      unfold listenerBuildProxyRequest builtXff
      rw [hsp]
      simp only [hgv, hv]
      rw [headerGet_headerSet_ne _ _ _ _ hne]
      simp [headerGet_headerSet_same]

/-- Witness for C7 at the spec's own example: inbound
`X-Forwarded-For: 1.2.3.4` with remote address `5.6.7.8` yields outbound
`X-Forwarded-For: 1.2.3.4,5.6.7.8`. -/
theorem c7_x_forwarded_for_witness :
    builtXff (listenerBuildProxyRequest exListener exRequest)
      = some ("1.2.3.4" ++ "," ++ exRequest.remoteAddr) :=
  (c7_x_forwarded_for exListener exRequest (by decide)).2 "1.2.3.4" (by decide) rfl

/-- C5 counterexample: a Host header without a parseable port ("localhost")
makes the handler reply with HTTP 500 (internal server error), not with the
502 bad-gateway condition the claim states. -/
theorem c5_counterexample :
    listenerBuildProxyRequest exListener { exRequest with host := "localhost" }
      = .errorResponse 500 "unable to create forwarded request"
    ∧ ¬ (500 : Nat) = 502 :=
  ⟨rfl, by decide⟩

/-- C5 (amended): the outbound `X-Forwarded-Port` is set to the port portion
of the inbound Host header; if that port cannot be parsed, the request is
not forwarded and the handler replies with HTTP 500
"unable to create forwarded request". -/
theorem c5_x_forwarded_port (l : Listener) (r : InboundRequest) :
    (∀ hst prt : String, splitHostPort r.host = some (hst, prt) →
      builtXfPort (listenerBuildProxyRequest l r) = some prt)
    ∧ (splitHostPort r.host = none →
      listenerBuildProxyRequest l r
        = .errorResponse 500 "unable to create forwarded request") := by
  constructor
  · intro hst prt hsp
    unfold listenerBuildProxyRequest builtXfPort
    rw [hsp]
    simp [headerGet_headerSet_same]
  · intro hsp
    unfold listenerBuildProxyRequest
    rw [hsp]

/-- Witness for C5: a request reaching the dispatcher at `127.0.0.1:8080`
gets outbound `X-Forwarded-Port: 8080`. -/
theorem c5_x_forwarded_port_witness :
    builtXfPort (listenerBuildProxyRequest exListener exRequest) = some "8080" :=
  (c5_x_forwarded_port exListener exRequest).1 "127.0.0.1" "8080" (by decide)

/-- C3 counterexample: an upstream 404 response is relayed to the client
with status 200 — the status code is not carried back unmodified. -/
theorem c3_counterexample :
    relayResponse { statusCode := 404, body := "not found" }
      = { status := 200, body := "not found" }
    ∧ ¬ (relayResponse { statusCode := 404, body := "not found" }).status = 404 :=
  ⟨rfl, by decide⟩

/-- C3 (amended): on a successful outbound call the upstream body is relayed
to the client unmodified, but the status code is not — the handler never
writes the upstream status, so the client always receives the default 200. -/
theorem c3_body_relayed_status_defaulted :
    ∀ resp : UpstreamResponse,
      (relayResponse resp).body = resp.body ∧ (relayResponse resp).status = 200 :=
  fun _ => ⟨rfl, rfl⟩

/-- C4: `NewListener` never initializes the `wg` field, so every listener it
returns has a nil wait-group pointer, and both `Listener.handle` (via
`l.wg.Add(1)`) and `Server.Stop` (via `listener.wg.Wait()`) hit a
nil-pointer panic instead of working on a usable in-flight counter. -/
theorem c4_nil_waitgroup_crash :
    (∀ (id : Nat) (ip : String) (port : Int) (configs : List ListenerConfig),
      (newListener id ip port configs).wg = none)
    ∧ listenerHandle exListener exRequest
        = .panic "runtime error: invalid memory address or nil pointer dereference"
    ∧ (serverStop exServer).1
        = .panicNilWg "runtime error: invalid memory address or nil pointer dereference" := by
  refine ⟨?_, rfl, rfl⟩
  intro id ip port configs
  exact wg_foldl_applyConfig configs _

/-- C6: on a pool holding one `NewListener`-created backend, the second-call
contract holds (an already-stopped pool fails with `ErrServerStopped` and is
left unchanged, no re-drain), but the first call does not return without
error: the drain panics on the nil wait group. -/
theorem c6_stop_idempotency_and_drain :
    serverStop { exServer with stopped := true }
      = (.errServerStopped, { exServer with stopped := true })
    ∧ (serverStop exServer).1
        = .panicNilWg "runtime error: invalid memory address or nil pointer dereference"
    ∧ ¬ (serverStop exServer).1 = .ok :=
  ⟨rfl, rfl, by decide⟩

/-- C2: with a non-empty backend slice whose weights are all zero, the
weighted-round-robin pick panics inside `rand.Intn(0)` (the flattened slice
is empty) instead of failing with the no-backends error. -/
theorem c2_all_zero_weights_panic :
    pickListener weightedRoundRobinStep ([] : List Nat) exZeroWeightListeners
      = .panic "invalid argument to Intn"
    ∧ ¬ pickListener weightedRoundRobinStep ([] : List Nat) exZeroWeightListeners
        = PickResult.noListeners :=
  ⟨rfl, by decide⟩

/-- The selection loop of `Server.handle` never exits on a pool whose only
listener is marked unhealthy: every pick succeeds with that listener,
whatever random draws arrive, and the unhealthy check sends it around
again. -/
theorem selectionLoop_all_unhealthy_loops :
    ∀ (fuel : Nat) (rs : List Nat),
      selectionLoop randomStep exUnhealthyServer rs fuel = .looping := by
  intro fuel
  induction fuel with
  | zero => intro rs; rfl
  | succ n ih =>
    intro rs
    have hstep : pickListener randomStep rs exUnhealthyServer.listeners
        = .picked exListener rs.tail := by
      simp [pickListener, randomStep, randIntn, Nat.mod_one, exUnhealthyServer]
    simp only [selectionLoop, hstep]
    simpa [exUnhealthyServer] using ih rs.tail

/-- C1: with every registered backend's id in the unhealthy set (here: the
single listener of `exUnhealthyServer`) and the pool not stopped,
`Server.handle` does not terminate: for every iteration bound the selection
loop is still running — it never returns the no-backends/503 outcome. -/
theorem c1_selection_loop_never_terminates :
    ∀ (rs : List Nat) (fuel : Nat),
      serverHandle randomStep exUnhealthyServer rs fuel = .looping
      ∧ ¬ serverHandle randomStep exUnhealthyServer rs fuel = .unavailableResponse := by
  intro rs fuel
  have h := selectionLoop_all_unhealthy_loops fuel rs
  constructor
  · simpa [serverHandle, exUnhealthyServer] using h
  · intro hcontra
    rw [show serverHandle randomStep exUnhealthyServer rs fuel
        = selectionLoop randomStep exUnhealthyServer rs fuel from rfl] at hcontra
    rw [h] at hcontra
    exact absurd hcontra (by decide)

end LoadBalancer
